import Mathlib

/-!
Verification of the radar-imagery ingestion-and-rendering pipeline of
Swiftships-UI against its natural-language specification.

The development shallowly embeds the TypeScript sources:
  * `src/app/modules/radar/radar-display.component.ts` (buffered sweep
    renderer: `drawSpoke`, `render`, `renderSingleSpoke`, `expandLegend`,
    `hexToRGBA`, `formatRange`, `setRadarConfig`),
  * the direct-draw variant of the display component (`unnamed/part_000`,
    whose `drawSpoke` rasterizes immediately with a range rescale),
  * `src/app/modules/radar/radar.service.ts` (`connectToRadar`,
    `connectWebSocket`'s `onclose` handler, `updateRange`, `disconnect`),
  * `RadarLayerComponent.expandLegend` in `src/app/app.component.ts`.

JavaScript numbers are modelled as exact rationals (`ℚ`); byte values as
`ℕ`; a JS sparse array / object keyed by numbers as `ℕ → Option _`;
`parseInt(s, 16)`'s NaN as `Option.none`.  The single-threaded JS event
loop is modelled by explicit event lists folded over a step function.
-/

namespace Swiftships

/-- `RadarSpoke` from radar-display.component.ts: `angle` (bin index),
optional `bearing`, `range` in meters, `data` (byte sequence, near→far). -/
structure RadarSpoke where
  angle : ℕ
  bearing : Option ℚ
  range : ℚ
  data : List ℕ

/-- `RadarConfig` from radar-display.component.ts: the sparse legend maps an
intensity index to a color string (the `{ color: string }` wrapper is kept
as just the string). -/
structure RadarConfig where
  spokes : ℕ
  maxSpokeLen : ℕ
  legend : ℕ → Option String
  range : ℚ

/-! ### Legend expansion (`hexToRGBA`, `expandLegend`)

Channel values are `Option ℕ`: `none` models the NaN that JS
`parseInt` yields on a chunk whose first character is not a hex digit. -/

/-- Value of one hex digit, `none` for a non-digit. -/
def hexDigitVal (c : Char) : Option ℕ :=
  if '0' ≤ c ∧ c ≤ '9' then some (c.toNat - '0'.toNat)
  else if 'a' ≤ c ∧ c ≤ 'f' then some (c.toNat - 'a'.toNat + 10)
  else if 'A' ≤ c ∧ c ≤ 'F' then some (c.toNat - 'A'.toNat + 10)
  else none

/-- Accumulate further hex digits, stopping at the first non-digit
(as JS `parseInt` does). -/
def parseHexRest (acc : ℕ) : List Char → ℕ
  | [] => acc
  | c :: rest =>
    match hexDigitVal c with
    | some d => parseHexRest (16 * acc + d) rest
    | none => acc

/-- JS `parseInt(s, 16)`: NaN (`none`) when the first character is not a
hex digit, otherwise the value of the longest valid prefix. -/
def parseIntHex : List Char → Option ℕ
  | [] => none
  | c :: rest => (hexDigitVal c).map fun d => parseHexRest d rest

/-- The chunking loop of `hexToRGBA`: `for (let i = 1; i < hex.length; i += 2)
rgba.push(parseInt(hex.slice(i, i + 2), 16))`, applied after dropping the
leading `#`.  The final chunk may have a single character. -/
def hexChunks : List Char → List (Option ℕ)
  | [] => []
  | [c] => [parseIntHex [c]]
  | c1 :: c2 :: rest => parseIntHex [c1, c2] :: hexChunks rest

/-- The padding loop of `hexToRGBA`:
`while (rgba.length < 4) rgba.push(rgba.length === 3 ? 255 : 0)`,
unrolled per input length (the loop runs `4 - length` times and only the
push at length 3 inserts 255). -/
def padRGBA : List (Option ℕ) → List (Option ℕ)
  | [] => [some 0, some 0, some 0, some 255]
  | [a] => [a, some 0, some 0, some 255]
  | [a, b] => [a, b, some 0, some 255]
  | [a, b, c] => [a, b, c, some 255]
  | l => l

/-- `hexToRGBA(hex)` from radar-display.component.ts (identical code in
`RadarLayerComponent` of app.component.ts). -/
def hexToRGBA (hex : String) : List (Option ℕ) :=
  padRGBA (hexChunks (hex.data.drop 1))

/-- Body of one iteration of the 256-entry loop shared by both
`expandLegend` implementations: a present index is parsed with
`hexToRGBA`, an absent one gets the transparent `[0, 0, 0, 0]`. -/
def legendEntry (legend : ℕ → Option String) (i : ℕ) : List (Option ℕ) :=
  match legend i with
  | some c => hexToRGBA c
  | none => [some 0, some 0, some 0, some 0]

/-- The full `for (let i = 0; i < 256; i++)` push loop. -/
def legendLoop (legend : ℕ → Option String) : List (List (Option ℕ)) :=
  (List.range 256).map (legendEntry legend)

/-- `expandLegend` of RadarDisplayComponent (radar-display.component.ts):
after the loop, `if (this.legend[0]) this.legend[0][3] = 255` forces the
alpha of entry 0 (the guard is JS truthiness of the first element, i.e.
the table being nonempty). -/
def expandLegendDisplay (legend : ℕ → Option String) : List (List (Option ℕ)) :=
  match legendLoop legend with
  | [] => []
  | e :: rest => e.set 3 (some 255) :: rest

/-- `expandLegend` of RadarLayerComponent (app.component.ts): the same
loop, but without the alpha-forcing of entry 0. -/
def expandLegendLayer (legend : ℕ → Option String) : List (List (Option ℕ)) :=
  legendLoop legend

/-! ### RadarDisplayComponent state, `drawSpoke`, `render` (buffered variant) -/

/-- The mutable fields of RadarDisplayComponent that the buffered pipeline
touches.  `spokeDataBuffer` is the JS sparse array indexed by angle
(`none` = hole); `rafQueue` counts callbacks queued through
`requestAnimationFrame` and not yet fired. -/
structure DisplayState where
  config : Option RadarConfig
  legend : List (List (Option ℕ))
  spokeDataBuffer : ℕ → Option (List ℕ)
  pendingRender : Bool
  rafQueue : ℕ

/-- Component state before any `setRadarConfig`: `config` undefined,
`legend = []`, empty buffer, no render pending. -/
def initDisplay : DisplayState :=
  { config := none, legend := [], spokeDataBuffer := fun _ => none,
    pendingRender := false, rafQueue := 0 }

/-- `setRadarConfig(config)` of the buffered display component: stores the
config, expands the legend and reinitializes the spoke buffer
(`new Array(config.spokes)`: all slots empty). -/
def setRadarConfig (st : DisplayState) (cfg : RadarConfig) : DisplayState :=
  { st with config := some cfg, legend := expandLegendDisplay cfg.legend,
            spokeDataBuffer := fun _ => none }

/-- `drawSpoke(spoke)` of the buffered display component
(radar-display.component.ts lines 227-238): guard on config and legend,
unconditional buffer overwrite at `spoke.angle`, then schedule one
`requestAnimationFrame(render)` if none is pending. -/
def drawSpoke (st : DisplayState) (sp : RadarSpoke) : DisplayState :=
  match st.config with
  | none => st
  | some _ =>
    if st.legend.length = 0 then st
    else
      let st1 := { st with spokeDataBuffer := fun a =>
        if a = sp.angle then some sp.data else st.spokeDataBuffer a }
      if st1.pendingRender then st1
      else { st1 with pendingRender := true, rafQueue := st1.rafQueue + 1 }

/-- One `render()` pass (radar-display.component.ts lines 241-259).
The second component is the raster drawn by this pass: `none` when the
guard bailed out, otherwise the contents of every buffered angle below
`config.spokes` (the canvas is cleared first, so the pass paints exactly
these entries). -/
def render (st : DisplayState) : DisplayState × Option (ℕ → Option (List ℕ)) :=
  match st.config with
  | none => ({ st with pendingRender := false }, none)
  | some cfg =>
    if st.legend.length = 0 then ({ st with pendingRender := false }, none)
    else
      ({ st with pendingRender := false },
       some fun a => if a < cfg.spokes then st.spokeDataBuffer a else none)

/-- Fire `n` queued animation-frame callbacks in order; each one runs
`render()`.  Returns the final state, the number of render passes that
executed, and the raster produced by the last pass. -/
def runCallbacks : ℕ → DisplayState → DisplayState × ℕ × Option (ℕ → Option (List ℕ))
  | 0, st => (st, 0, none)
  | n + 1, st =>
    let p := render st
    let q := runCallbacks n p.1
    (q.1, q.2.1 + 1, match q.2.2 with | some r => some r | none => p.2)

/-- One display-refresh tick: every queued callback fires. -/
def tick (st : DisplayState) : DisplayState × ℕ × Option (ℕ → Option (List ℕ)) :=
  let q := runCallbacks st.rafQueue st
  ({ q.1 with rafQueue := 0 }, q.2.1, q.2.2)

/-- Specification-side description of the sweep buffer after a sequence of
spokes: the `data` of the most recently processed spoke at that angle,
or the prior entry when the sequence contains no spoke for the angle. -/
def lastDataAt (l : List RadarSpoke) (buf : ℕ → Option (List ℕ)) (a : ℕ) :
    Option (List ℕ) :=
  match l.reverse.find? (fun sp => sp.angle = a) with
  | some sp => some sp.data
  | none => buf a

/-- `drawSpoke` never changes `config` or `legend`. -/
theorem drawSpoke_config_legend (st : DisplayState) (sp : RadarSpoke) :
    (drawSpoke st sp).config = st.config ∧ (drawSpoke st sp).legend = st.legend := by
  unfold drawSpoke
  cases hc : st.config with
  | none => simp [hc]
  | some cfg =>
    simp only
    split
    · simp [hc]
    · split <;> simp [hc]

/-- With a config set and a nonempty legend, `drawSpoke` overwrites exactly
the slot at the spoke's angle. -/
theorem drawSpoke_buffer (st : DisplayState) (sp : RadarSpoke)
    (hc : st.config.isSome) (hl : st.legend ≠ []) :
    (drawSpoke st sp).spokeDataBuffer = fun a =>
      if a = sp.angle then some sp.data else st.spokeDataBuffer a := by
  unfold drawSpoke
  obtain ⟨cfg, hcfg⟩ := Option.isSome_iff_exists.mp hc
  rw [hcfg]
  simp only
  rw [if_neg (by simpa using List.length_eq_zero.not.mpr hl)]
  split <;> rfl

/-- Folding `drawSpoke` over a spoke list realizes last-write-wins per
angle (helper for the C1 and C3 claims). -/
theorem foldl_drawSpoke_buffer (l : List RadarSpoke) (st : DisplayState)
    (hc : st.config.isSome) (hl : st.legend ≠ []) :
    (l.foldl drawSpoke st).spokeDataBuffer = lastDataAt l st.spokeDataBuffer := by
  induction l generalizing st with
  | nil => funext a; simp [lastDataAt]
  | cons sp rest ih =>
    have hcl := drawSpoke_config_legend st sp
    have hc1 : (drawSpoke st sp).config.isSome := by rw [hcl.1]; exact hc
    have hl1 : (drawSpoke st sp).legend ≠ [] := by rw [hcl.2]; exact hl
    funext a
    rw [List.foldl_cons, ih (drawSpoke st sp) hc1 hl1]
    simp only [lastDataAt, List.reverse_cons, List.find?_append]
    cases hfind : List.find? (fun sp => sp.angle = a) rest.reverse with
    | some sp2 => simp [hfind]
    | none =>
      simp only [hfind, Option.none_orElse]
      rw [drawSpoke_buffer st sp hc hl]
      by_cases ha : sp.angle = a
      · simp [ha]
      · have : ¬ (a = sp.angle) := fun h => ha h.symm
        simp [ha, this]

/-- `drawSpoke` leaves `pendingRender` set and schedules nothing further
once a render is already pending. -/
theorem drawSpoke_pending (st : DisplayState) (sp : RadarSpoke)
    (hp : st.pendingRender = true) :
    (drawSpoke st sp).pendingRender = true ∧
    (drawSpoke st sp).rafQueue = st.rafQueue := by
  unfold drawSpoke
  cases hc : st.config with
  | none => simp [hp]
  | some cfg =>
    simp only
    split
    · simp [hp]
    · simp [hp]

/-- Folding `drawSpoke` while a render is pending keeps it pending and
queues no further callback. -/
theorem foldl_drawSpoke_pending (l : List RadarSpoke) (st : DisplayState)
    (hp : st.pendingRender = true) :
    (l.foldl drawSpoke st).pendingRender = true ∧
    (l.foldl drawSpoke st).rafQueue = st.rafQueue := by
  induction l generalizing st with
  | nil => exact ⟨hp, rfl⟩
  | cons sp rest ih =>
    have h1 := drawSpoke_pending st sp hp
    have h2 := ih (drawSpoke st sp) h1.1
    exact ⟨h2.1, h2.2.trans h1.2⟩

/-- Folding `drawSpoke` never changes `config` or `legend`. -/
theorem foldl_drawSpoke_config (l : List RadarSpoke) (st : DisplayState) :
    (l.foldl drawSpoke st).config = st.config ∧
    (l.foldl drawSpoke st).legend = st.legend := by
  induction l generalizing st with
  | nil => exact ⟨rfl, rfl⟩
  | cons sp rest ih =>
    have h1 := drawSpoke_config_legend st sp
    have h2 := ih (drawSpoke st sp)
    exact ⟨h2.1.trans h1.1, h2.2.trans h1.2⟩

/-- The first spoke processed while idle stores its data, flips
`pendingRender` and queues exactly one callback. -/
theorem drawSpoke_schedules (st : DisplayState) (sp : RadarSpoke)
    (hc : st.config.isSome) (hl : st.legend ≠ []) (hp : st.pendingRender = false) :
    (drawSpoke st sp).pendingRender = true ∧
    (drawSpoke st sp).rafQueue = st.rafQueue + 1 := by
  unfold drawSpoke
  obtain ⟨cfg, hcfg⟩ := Option.isSome_iff_exists.mp hc
  rw [hcfg]
  simp only
  rw [if_neg (by simpa using List.length_eq_zero.not.mpr hl)]
  simp [hp]

/-- Claim C1: after `drawSpoke` processes a sequence of spokes (with a
radar config set and a nonempty expanded legend), the sweep buffer holds
at each angle exactly the `data` of the most recently processed spoke
with that angle — an unconditional overwrite with no merging — and every
angle no processed spoke carried is unchanged. -/
theorem sweep_buffer_last_write_wins (st : DisplayState) (l : List RadarSpoke)
    (hc : st.config.isSome) (hl : st.legend ≠ []) :
    ∀ a : ℕ, (l.foldl drawSpoke st).spokeDataBuffer a =
      match l.reverse.find? (fun sp => sp.angle = a) with
      | some sp => some sp.data
      | none => st.spokeDataBuffer a := by
  intro a
  rw [foldl_drawSpoke_buffer l st hc hl]
  rfl

/-- Shared concrete fixtures for witnesses. -/
def cfg0 : RadarConfig :=
  { spokes := 2048, maxSpokeLen := 1024, legend := fun _ => none, range := 1852 }

/-- A display component right after `setRadarConfig cfg0`. -/
def st0 : DisplayState := setRadarConfig initDisplay cfg0

/-- Three concrete spokes; the first and third share angle 5. -/
def spokesW : List RadarSpoke :=
  [{ angle := 5, bearing := none, range := 1852, data := [1, 2] },
   { angle := 7, bearing := none, range := 1852, data := [3] },
   { angle := 5, bearing := none, range := 1852, data := [9] }]

theorem sweep_buffer_last_write_wins_witness :
    st0.config.isSome ∧ st0.legend ≠ [] ∧
    (spokesW.foldl drawSpoke st0).spokeDataBuffer 5 = some [9] ∧
    (spokesW.foldl drawSpoke st0).spokeDataBuffer 7 = some [3] ∧
    (spokesW.foldl drawSpoke st0).spokeDataBuffer 11 = none :=
  ⟨rfl, by decide,
   (sweep_buffer_last_write_wins st0 spokesW rfl (by decide) 5).trans (by decide),
   (sweep_buffer_last_write_wins st0 spokesW rfl (by decide) 7).trans (by decide),
   (sweep_buffer_last_write_wins st0 spokesW rfl (by decide) 11).trans (by decide)⟩

/-- Claim C3: if any nonempty batch of spokes is delivered while the
scheduler is idle, exactly one callback is queued (later arrivals see
`pendingRender` and schedule nothing), the next tick executes exactly one
render pass, that pass paints the buffer that already reflects every
update of the batch, and the scheduler returns to idle. -/
theorem render_coalescing (st : DisplayState) (cfg : RadarConfig)
    (l : List RadarSpoke) (hc : st.config = some cfg) (hl : st.legend ≠ [])
    (hp : st.pendingRender = false) (hq : st.rafQueue = 0) (hne : l ≠ []) :
    (l.foldl drawSpoke st).rafQueue = 1 ∧
    (l.foldl drawSpoke st).pendingRender = true ∧
    (tick (l.foldl drawSpoke st)).2.1 = 1 ∧
    (tick (l.foldl drawSpoke st)).2.2 =
      some (fun a => if a < cfg.spokes
        then lastDataAt l st.spokeDataBuffer a else none) ∧
    (tick (l.foldl drawSpoke st)).1.pendingRender = false ∧
    (tick (l.foldl drawSpoke st)).1.rafQueue = 0 := by
  obtain ⟨sp, rest, rfl⟩ : ∃ sp rest, l = sp :: rest := by
    cases l with
    | nil => exact absurd rfl hne
    | cons a b => exact ⟨a, b, rfl⟩
  have hcs : st.config.isSome := by rw [hc]; rfl
  have hsch := drawSpoke_schedules st sp hcs hl hp
  have hfold := foldl_drawSpoke_pending rest (drawSpoke st sp) hsch.1
  have hq1 : ((sp :: rest).foldl drawSpoke st).rafQueue = 1 := by
    rw [List.foldl_cons, hfold.2, hsch.2, hq]
  have hp1 : ((sp :: rest).foldl drawSpoke st).pendingRender = true := by
    rw [List.foldl_cons]; exact hfold.1
  have hcfg1 : ((sp :: rest).foldl drawSpoke st).config = some cfg :=
    (foldl_drawSpoke_config (sp :: rest) st).1.trans hc
  have hleg1 : ((sp :: rest).foldl drawSpoke st).legend ≠ [] := by
    rw [(foldl_drawSpoke_config (sp :: rest) st).2]; exact hl
  have hbuf : ((sp :: rest).foldl drawSpoke st).spokeDataBuffer =
      lastDataAt (sp :: rest) st.spokeDataBuffer :=
    foldl_drawSpoke_buffer (sp :: rest) st hcs hl
  have hrender : render ((sp :: rest).foldl drawSpoke st) =
      ({ (sp :: rest).foldl drawSpoke st with pendingRender := false },
       some fun a => if a < cfg.spokes
         then lastDataAt (sp :: rest) st.spokeDataBuffer a else none) := by
    unfold render
    rw [hcfg1]
    simp only
    rw [if_neg (by simpa using List.length_eq_zero.not.mpr hleg1)]
    rw [hbuf]
    have hcfg2 := hcfg1
    simp only [List.foldl_cons] at hcfg2
    simp [hcfg1, hcfg2]
  have htick : tick ((sp :: rest).foldl drawSpoke st) =
      ({ { (sp :: rest).foldl drawSpoke st with pendingRender := false }
           with rafQueue := 0 }, 1,
       some fun a => if a < cfg.spokes
         then lastDataAt (sp :: rest) st.spokeDataBuffer a else none) := by
    unfold tick
    rw [hq1]
    unfold runCallbacks
    unfold runCallbacks
    rw [hrender]
  refine ⟨hq1, hp1, ?_, ?_, ?_, ?_⟩ <;> rw [htick]

/-- A single concrete spoke for the C3 witness. -/
def spokeW1 : RadarSpoke := { angle := 3, bearing := none, range := 1852, data := [4, 5] }

theorem render_coalescing_witness :
    st0.config = some cfg0 ∧ st0.legend ≠ [] ∧ st0.pendingRender = false ∧
    st0.rafQueue = 0 ∧ ([spokeW1] : List RadarSpoke) ≠ [] ∧
    ([spokeW1].foldl drawSpoke st0).rafQueue = 1 ∧
    (tick ([spokeW1].foldl drawSpoke st0)).2.1 = 1 ∧
    (tick ([spokeW1].foldl drawSpoke st0)).2.2 =
      some (fun a => if a < cfg0.spokes
        then lastDataAt [spokeW1] st0.spokeDataBuffer a else none) := by
  have h := render_coalescing st0 cfg0 [spokeW1] rfl (by decide) rfl rfl
    (List.cons_ne_nil _ _)
  exact ⟨rfl, by decide, rfl, rfl, List.cons_ne_nil _ _, h.1, h.2.2.1, h.2.2.2.1⟩

/-- Claim C10: before a radar config is set (or while the expanded legend
is empty), `drawSpoke` is a total no-op: the state — in particular the
sweep buffer and the render queue — is returned unchanged. -/
theorem drawSpoke_noop_without_config (st : DisplayState) (sp : RadarSpoke)
    (h : st.config = none ∨ st.legend = []) :
    drawSpoke st sp = st := by
  unfold drawSpoke
  rcases h with h | h
  · rw [h]
  · cases hc : st.config with
    | none => rfl
    | some cfg => simp [h]

theorem drawSpoke_noop_without_config_witness :
    (initDisplay.config = none ∨ initDisplay.legend = []) ∧
    drawSpoke initDisplay spokeW1 = initDisplay :=
  ⟨Or.inl rfl, drawSpoke_noop_without_config initDisplay spokeW1 (Or.inl rfl)⟩

/-! ### Legend-expansion lemmas (claim C2) -/

/-- `padRGBA` always returns at least the four RGBA channels. -/
theorem four_le_padRGBA_length (l : List (Option ℕ)) : 4 ≤ (padRGBA l).length := by
  match l with
  | [] => simp [padRGBA]
  | [a] => simp [padRGBA]
  | [a, b] => simp [padRGBA]
  | [a, b, c] => simp [padRGBA]
  | a :: b :: c :: d :: rest => simp [padRGBA]

/-- `hexToRGBA` always produces at least the four RGBA channels. -/
theorem four_le_hexToRGBA_length (hex : String) : 4 ≤ (hexToRGBA hex).length :=
  four_le_padRGBA_length _

/-- Every loop entry has at least four channels. -/
theorem four_le_legendEntry_length (legend : ℕ → Option String) (i : ℕ) :
    4 ≤ (legendEntry legend i).length := by
  unfold legendEntry
  cases legend i with
  | none => simp
  | some c => exact four_le_hexToRGBA_length c

/-- The 256-entry loop splits into its first entry and the remaining 255. -/
theorem legendLoop_eq (legend : ℕ → Option String) :
    legendLoop legend = legendEntry legend 0 ::
      (List.range 255).map (fun j => legendEntry legend (j + 1)) := by
  unfold legendLoop
  rw [show (256 : ℕ) = 255 + 1 from rfl, List.range_succ_eq_map, List.map_cons,
    List.map_map]
  rfl

/-- The display component's expansion: entry 0 with its alpha forced. -/
theorem expandLegendDisplay_eq (legend : ℕ → Option String) :
    expandLegendDisplay legend = (legendEntry legend 0).set 3 (some 255) ::
      (List.range 255).map (fun j => legendEntry legend (j + 1)) := by
  unfold expandLegendDisplay
  rw [legendLoop_eq]

/-- Claim C2 (amended): both legend expansions yield exactly 256 entries
and map every absent index other than 0 to the transparent `(0,0,0,0)`;
in the radar-display component the entry at index 0 always ends with
alpha 255 — so an absent index 0 yields `(0,0,0,255)` there — while the
`RadarLayerComponent` variant keeps index 0's computed value, so an
absent index 0 stays fully transparent. -/
theorem legend_expansion (legend : ℕ → Option String) :
    (expandLegendDisplay legend).length = 256 ∧
    (expandLegendLayer legend).length = 256 ∧
    (∀ i, 1 ≤ i → i < 256 → legend i = none →
      (expandLegendDisplay legend)[i]? = some [some 0, some 0, some 0, some 0]) ∧
    (∀ i, i < 256 → legend i = none →
      (expandLegendLayer legend)[i]? = some [some 0, some 0, some 0, some 0]) ∧
    (∃ e, (expandLegendDisplay legend)[0]? = some e ∧ e[3]? = some (some 255)) ∧
    (legend 0 = none →
      (expandLegendDisplay legend)[0]? = some [some 0, some 0, some 0, some 255]) := by
  have hloop : ∀ i, i < 256 → legend i = none →
      (expandLegendLayer legend)[i]? = some [some 0, some 0, some 0, some 0] := by
    intro i hi hnone
    unfold expandLegendLayer legendLoop
    rw [List.getElem?_map, List.getElem?_range hi]
    simp [legendEntry, hnone]
  refine ⟨?_, ?_, ?_, hloop, ?_, ?_⟩
  · rw [expandLegendDisplay_eq]; simp
  · unfold expandLegendLayer legendLoop; simp
  · intro i h1 h2 hnone
    obtain ⟨j, rfl⟩ : ∃ j, i = j + 1 := ⟨i - 1, by omega⟩
    rw [expandLegendDisplay_eq, List.getElem?_cons_succ, List.getElem?_map,
      List.getElem?_range (by omega : j < 255)]
    simp [legendEntry, hnone]
  · refine ⟨(legendEntry legend 0).set 3 (some 255), ?_, ?_⟩
    · rw [expandLegendDisplay_eq]; rfl
    · exact List.getElem?_set_eq_of_lt (some 255)
        (lt_of_lt_of_le (by norm_num) (four_le_legendEntry_length legend 0))
  · intro hnone
    rw [expandLegendDisplay_eq, List.getElem?_cons_zero]
    unfold legendEntry
    rw [hnone]
    decide

/-- All-absent sparse legend, used by the C2 witness. -/
def legendW : ℕ → Option String := fun _ => none

theorem legend_expansion_witness :
    (expandLegendDisplay legendW).length = 256 ∧
    (1 ≤ 5 ∧ 5 < 256 ∧ legendW 5 = none) ∧
    (expandLegendDisplay legendW)[5]? = some [some 0, some 0, some 0, some 0] ∧
    (expandLegendLayer legendW)[5]? = some [some 0, some 0, some 0, some 0] ∧
    (expandLegendDisplay legendW)[0]? = some [some 0, some 0, some 0, some 255] := by
  have h := legend_expansion legendW
  exact ⟨h.1, ⟨by norm_num, by norm_num, rfl⟩,
    h.2.2.1 5 (by norm_num) (by norm_num) rfl,
    h.2.2.2.1 5 (by norm_num) rfl,
    h.2.2.2.2.2 rfl⟩

/-- Sparse legend whose index 0 carries an explicit 4-channel color with
alpha 0, used by the C2 counterexample. -/
def legendCX : ℕ → Option String := fun i => if i = 0 then some "#00000000" else none

/-- Claim C2 as frozen is false: (a) in the radar-display component an
absent index 0 expands to `(0,0,0,255)` — the alpha forcing contradicts
the clause that absent indices map to `(0,0,0,0)`; (b) the cited
`RadarLayerComponent.expandLegend` never forces index 0's alpha: a legend
whose index 0 is the 4-channel color `#00000000` keeps alpha 0 there. -/
theorem legend_expansion_counterexample :
    (legendW 0 = none ∧
      (expandLegendDisplay legendW)[0]? = some [some 0, some 0, some 0, some 255] ∧
      some [some 0, some 0, some 0, (some 255 : Option ℕ)] ≠
        some [some 0, some 0, some 0, some 0]) ∧
    (legendCX 0 = some "#00000000" ∧
      (expandLegendLayer legendCX)[0]? = some [some 0, some 0, some 0, some 0] ∧
      (some 0 : Option ℕ) ≠ some 255) := by
  refine ⟨⟨rfl, ?_, by decide⟩, ⟨rfl, ?_, by decide⟩⟩
  · rw [expandLegendDisplay_eq, List.getElem?_cons_zero]
    rfl
  · unfold expandLegendLayer legendLoop
    rw [List.getElem?_map, List.getElem?_range (by norm_num : (0:ℕ) < 256)]
    rfl

/-! ### Radial pixel scale (claim C4) -/

/-- `RANGE_SCALE = 0.9` of both display-component variants. -/
def RANGE_SCALE : ℚ := 9 / 10

/-- The radial pixel scale used by `renderSingleSpoke` (buffered variant,
radar-display.component.ts lines 270-271): `pixelsPerDataPoint =
maxRadius * RANGE_SCALE / spokeData.length` and `scaledPixelsPerDataPoint
= pixelsPerDataPoint` — no range rescale is applied (the sweep buffer
stores only the byte data, so the spoke's own range is not even passed
in). -/
def renderSingleSpokeScale (maxRadius : ℚ) (dataLen : ℕ) : ℚ :=
  let pixelsPerDataPoint := maxRadius * RANGE_SCALE / (dataLen : ℚ)
  pixelsPerDataPoint

/-- The radial pixel scale used by the direct-draw `drawSpoke`
(unnamed/part_000 lines 194-196): `rangeScale = config.range ?
spoke.range / config.range : 1` (JS truthiness — a zero `config.range`
selects 1 without dividing), then `pixelsPerDataPoint * rangeScale`. -/
def drawSpokeScale (maxRadius : ℚ) (dataLen : ℕ) (spokeRange cfgRange : ℚ) : ℚ :=
  let pixelsPerDataPoint := maxRadius * RANGE_SCALE / (dataLen : ℚ)
  let rangeScale := if cfgRange = 0 then 1 else spokeRange / cfgRange
  pixelsPerDataPoint * rangeScale

/-- Claim C4 as frozen is false for `renderSingleSpoke`: with
`maxRadius = 100`, 512 samples, a spoke captured at range 3704 m and a
config range of 1852 m, the claim requires the doubled scale
`(100·0.9/512)·2 = 45/128` (which the direct-draw variant produces), but
`renderSingleSpoke` draws at the unscaled `45/256`. -/
theorem range_rescale_counterexample :
    renderSingleSpokeScale 100 512 = 45 / 256 ∧
    drawSpokeScale 100 512 3704 1852 = 45 / 128 ∧
    renderSingleSpokeScale 100 512 ≠ drawSpokeScale 100 512 3704 1852 := by
  refine ⟨?_, ?_, ?_⟩ <;> norm_num [renderSingleSpokeScale, drawSpokeScale, RANGE_SCALE]

/-- Claim C4 (amended): the direct-draw `drawSpoke` multiplies the radial
pixel scale by `spoke.range / config.range`, treating a zero
`config.range` as factor 1 without dividing; the buffered
`renderSingleSpoke` applies no range rescale at all (factor always 1). -/
theorem range_rescale (maxRadius : ℚ) (dataLen : ℕ) (spokeRange cfgRange : ℚ) :
    (cfgRange ≠ 0 → drawSpokeScale maxRadius dataLen spokeRange cfgRange =
      maxRadius * RANGE_SCALE / (dataLen : ℚ) * (spokeRange / cfgRange)) ∧
    drawSpokeScale maxRadius dataLen spokeRange 0 =
      maxRadius * RANGE_SCALE / (dataLen : ℚ) ∧
    renderSingleSpokeScale maxRadius dataLen =
      maxRadius * RANGE_SCALE / (dataLen : ℚ) := by
  refine ⟨fun h => ?_, ?_, rfl⟩
  · unfold drawSpokeScale
    rw [if_neg h]
  · unfold drawSpokeScale
    rw [if_pos rfl, mul_one]

theorem range_rescale_witness :
    ((1852 : ℚ) ≠ 0 ∧
      drawSpokeScale 100 512 3704 1852 = 100 * RANGE_SCALE / 512 * (3704 / 1852)) ∧
    drawSpokeScale 100 512 3704 0 = 100 * RANGE_SCALE / 512 ∧
    renderSingleSpokeScale 100 512 = 100 * RANGE_SCALE / 512 :=
  ⟨⟨by norm_num, (range_rescale 100 512 3704 1852).1 (by norm_num)⟩,
   (range_rescale 100 512 3704 0).2.1, (range_rescale 100 512 3704 1852).2.2⟩

/-! ### Spoke angle and heading correction (claim C6) -/

/-- JS `%` (fmod) for a nonnegative dividend and positive divisor. -/
def jsMod (x y : ℚ) : ℚ := x - y * ⌊x / y⌋

/-- `adjustedAngle = (spoke.angle + (spokes * 3) / 4) % spokes` of
`renderSingleSpoke` (radar-display.component.ts line 263). -/
def adjustedAngle (spokes angle : ℕ) : ℚ :=
  jsMod ((angle : ℚ) + (spokes : ℚ) * 3 / 4) (spokes : ℚ)

/-- `angleRad = (2 * Math.PI * adjustedAngle) / spokes`. -/
noncomputable def angleRad (spokes angle : ℕ) : ℝ :=
  2 * Real.pi * ((adjustedAngle spokes angle : ℚ) : ℝ) / (spokes : ℝ)

/-- `finalAngle = angleRad - headingRad` with
`headingRad = boatHeading * Math.PI / 180`. -/
noncomputable def finalAngle (spokes angle : ℕ) (boatHeading : ℚ) : ℝ :=
  angleRad spokes angle - (boatHeading : ℝ) * Real.pi / 180

/-- The spec's formula, written from its words: `theta = 2π · ((angle +
spokes · 3/4) mod spokes) / spokes`. -/
noncomputable def specTheta (spokes angle : ℕ) : ℝ :=
  2 * Real.pi *
    ((jsMod ((angle : ℚ) + (spokes : ℚ) * 3 / 4) (spokes : ℚ) : ℚ) : ℝ) /
    (spokes : ℝ)

/-- Claim C6: the rendered wedge angle equals `theta − heading·π/180` for
the spec's `theta`; with heading 0 it equals `theta`; and concretely, for
`spokes = 2048` the wedge at bin 512 has `theta = 0` and with heading 90°
renders at `−π/2`. -/
theorem heading_correction (spokes angle : ℕ) (h : ℚ) :
    finalAngle spokes angle h = specTheta spokes angle - (h : ℝ) * Real.pi / 180 ∧
    finalAngle spokes angle 0 = specTheta spokes angle ∧
    specTheta 2048 512 = 0 ∧
    finalAngle 2048 512 90 = -(Real.pi / 2) := by
  have hadj : adjustedAngle 2048 512 = 0 := by
    unfold adjustedAngle jsMod
    norm_num
  have hzero : specTheta 2048 512 = 0 := by
    unfold specTheta
    have : jsMod ((512 : ℕ) + (2048 : ℕ) * 3 / 4) ((2048 : ℕ) : ℚ) = 0 := hadj
    rw [show (((512 : ℕ) : ℚ)) = (512 : ℚ) by norm_num,
      show (((2048 : ℕ) : ℚ)) = (2048 : ℚ) by norm_num] at this ⊢
    rw [this]
    norm_num
  refine ⟨rfl, ?_, hzero, ?_⟩
  · show angleRad spokes angle - ((0 : ℚ) : ℝ) * Real.pi / 180 = specTheta spokes angle
    norm_num
    rfl
  · show angleRad 2048 512 - ((90 : ℚ) : ℝ) * Real.pi / 180 = -(Real.pi / 2)
    have : angleRad 2048 512 = specTheta 2048 512 := rfl
    rw [this, hzero]
    push_cast
    ring

/-! ### Range-ring label formatting (claim C7) -/

/-- JS `Math.round` (round half up); `Rat.floor` is the computable
integer floor on `ℚ`. -/
def jsRound (x : ℚ) : ℤ := Rat.floor (x + 1 / 2)

/-- JS `Number.prototype.toFixed(1)` for the nonnegative values that
occur here: round to one decimal and print `"<int>.<digit>"`. -/
def jsToFixed1 (x : ℚ) : String :=
  let k : ℤ := Rat.floor (x * 10 + 1 / 2)
  toString (k / 10) ++ "." ++ toString (k % 10)

/-- `formatRange(rangeInMeters)` from radar-display.component.ts lines
368-382: `≥ 1852` → nautical miles, integral values printed bare (JS
prints an integral float without a decimal point), others via
`toFixed(1)`; `≥ 1000` → kilometers with one decimal; else rounded
meters. -/
def formatRange (rangeInMeters : ℚ) : String :=
  if 1852 ≤ rangeInMeters then
    let nm := rangeInMeters / 1852
    if nm = (Rat.floor nm : ℚ) then toString (Rat.floor nm) ++ " nm"
    else jsToFixed1 nm ++ " nm"
  else if 1000 ≤ rangeInMeters then jsToFixed1 (rangeInMeters / 1000) ++ " km"
  else toString (jsRound rangeInMeters) ++ " m"

/-- Claim C7: the range-label formatter maps 1852 m to `"1 nm"`, 2778 m to
`"1.5 nm"`, 500 m to `"500 m"` and 1500 m to `"1.5 km"`. -/
theorem formatRange_examples :
    formatRange 1852 = "1 nm" ∧ formatRange 2778 = "1.5 nm" ∧
    formatRange 500 = "500 m" ∧ formatRange 1500 = "1.5 km" := by
  have hfl : ∀ q : ℚ, Rat.floor q = ⌊q⌋ := fun q => by
    rw [Rat.floor_def', ← Rat.floor_def]
  refine ⟨?_, ?_, ?_, ?_⟩ <;>
    · simp only [formatRange, jsToFixed1, jsRound, hfl]
      norm_num
      rfl

/-! ### RadarService (radar.service.ts): connection lifecycle

The service is single-threaded and event-driven; we embed it as a state
record plus a step function over explicit events.  `setTimeout` handlers
are reified: `reconnectTimers` counts scheduled (not yet fired) 5-second
reconnect timers, and `closeQueued` counts `onclose` events that an
explicit `webSocket.close()` has made pending. -/

/-- `RadarServerInfo` of radar.service.ts (the `controls` blob is kept
opaque as a string). -/
structure RadarServerInfo where
  name : String
  streamUrl : String
  controlUrl : String
  spokes : ℕ
  maxSpokeLen : ℕ
  legend : ℕ → Option String

/-- The errors `connectToRadar` throws before any socket is created. -/
inductive RadarError where
  | noRadarsAvailable : RadarError
  | sourceNotFound (requested : String) (available : List String) : RadarError

/-- The JS `Error` message strings built by `connectToRadar`
(`availableIds = Object.keys(radars).join(', ')`). -/
def errorMessage : RadarError → String
  | .noRadarsAvailable => "No radars available"
  | .sourceNotFound r ids =>
      "Radar " ++ r ++ " not found. Available radars: " ++ String.intercalate ", " ids

/-- The service fields relevant to the connection lifecycle.  `socket`:
`none` = `this.webSocket === null`, `some true` = a live WebSocket,
`some false` = a closed WebSocket object still referenced.
`socketsOpened` counts WebSocket constructions. -/
structure SvcState where
  connecting : Bool
  connected : Bool
  currentRadar : Option (String × RadarServerInfo)
  radarConfig : Option RadarConfig
  socket : Option Bool
  socketsOpened : ℕ
  closeQueued : ℕ
  reconnectTimers : ℕ

/-- Freshly constructed service. -/
def initSvc : SvcState :=
  { connecting := false, connected := false, currentRadar := none,
    radarConfig := none, socket := none, socketsOpened := 0,
    closeQueued := 0, reconnectTimers := 0 }

/-- `Object.keys(radars)` for the discovery result, modelled as an
association list in object-key order. -/
def radarKeys (radars : List (String × RadarServerInfo)) : List String :=
  radars.map Prod.fst

/-- `radars[radarId]` lookup. -/
def lookupRadar (radars : List (String × RadarServerInfo)) (rid : String) :
    Option RadarServerInfo :=
  (radars.find? fun p => p.1 = rid).map Prod.snd

/-- The fixed reconnect delay of the `onclose` handler
(`setTimeout(..., 5000)`). -/
def reconnectDelayMs : ℕ := 5000

/-- `connectToRadar(radarId?)` (radar.service.ts lines 67-122) up to the
creation of the WebSocket; the discovery result `radars` is the already
fetched response.  Returns the new state and the error thrown, if any
(in the catch block the code also sets `connecting$` back to false). -/
def connectToRadar (radars : List (String × RadarServerInfo))
    (radarId : Option String) (s : SvcState) : SvcState × Option RadarError :=
  if s.connecting || s.connected then (s, none)
  else
    let s1 := { s with connecting := true }
    let rid := match radarId with
      | some r => some r
      | none => (radarKeys radars).head?
    match rid with
    | none => ({ s1 with connecting := false }, some RadarError.noRadarsAvailable)
    | some r =>
      match lookupRadar radars r with
      | none =>
        ({ s1 with connecting := false },
         some (RadarError.sourceNotFound r (radarKeys radars)))
      | some info =>
        let cfg : RadarConfig :=
          { spokes := info.spokes, maxSpokeLen := info.maxSpokeLen,
            legend := info.legend, range := 1852 }
        ({ s1 with currentRadar := some (r, info), radarConfig := some cfg,
                   socket := some true, socketsOpened := s1.socketsOpened + 1 },
         none)

/-- Body of the `onclose` handler (radar.service.ts lines 141-152): state
returns to disconnected and a 5-second reconnect timer is scheduled —
unconditionally, whatever caused the close. -/
def handleClose (s : SvcState) : SvcState :=
  { s with connected := false, connecting := false,
           reconnectTimers := s.reconnectTimers + 1 }

/-- `updateRange(range)` (radar.service.ts lines 201-209): republishes the
current config with only `range` replaced; nothing else is touched. -/
def updateRange (s : SvcState) (range : ℚ) : SvcState :=
  match s.radarConfig with
  | none => s
  | some cfg => { s with radarConfig := some { cfg with range := range } }

/-- `disconnect()` (radar.service.ts lines 211-219): `webSocket.close()`
(whose `onclose` fires later: queued), null the socket, clear the flags
and the current radar.  Pending reconnect timers are NOT cancelled. -/
def disconnect (s : SvcState) : SvcState :=
  let s1 := match s.socket with
    | some true => { s with closeQueued := s.closeQueued + 1, socket := none }
    | _ => { s with socket := none }
  { s1 with connected := false, connecting := false, currentRadar := none }

/-- Events of the service's single-threaded event loop. -/
inductive SvcEvent where
  | userConnect (radarId : Option String)
  | socketOpened
  | remoteClose
  | queuedCloseFired
  | timerFired
  | userDisconnect
  deriving DecidableEq

/-- One event-loop step.  `socketOpened` is the `onopen` handler of a live
socket; `remoteClose` a close initiated by the peer/transport;
`queuedCloseFired` the deferred `onclose` after an explicit `close()`;
`timerFired` a scheduled reconnect timer going off (its body re-runs
`connectToRadar(this.currentRadar.id)` only if a current radar is still
set). -/
def step (radars : List (String × RadarServerInfo)) (s : SvcState) :
    SvcEvent → SvcState
  | .userConnect radarId => (connectToRadar radars radarId s).1
  | .socketOpened =>
      if s.socket = some true then
        { s with connected := true, connecting := false }
      else s
  | .remoteClose =>
      if s.socket = some true then handleClose { s with socket := some false }
      else s
  | .queuedCloseFired =>
      if 1 ≤ s.closeQueued then
        handleClose { s with closeQueued := s.closeQueued - 1 }
      else s
  | .timerFired =>
      if 1 ≤ s.reconnectTimers then
        let s1 := { s with reconnectTimers := s.reconnectTimers - 1 }
        match s1.currentRadar with
        | some (r, _) => (connectToRadar radars (some r) s1).1
        | none => s1
      else s
  | .userDisconnect => disconnect s

/-- Run a list of events from a starting state. -/
def runTrace (radars : List (String × RadarServerInfo)) (s : SvcState)
    (tr : List SvcEvent) : SvcState :=
  tr.foldl (step radars) s

/-- A concrete discovered radar, used by witnesses and counterexamples. -/
def info0 : RadarServerInfo :=
  { name := "Radar 1", streamUrl := "ws://localhost:3001/v1/api/stream",
    controlUrl := "ws://localhost:3001/v1/api/control",
    spokes := 2048, maxSpokeLen := 1024, legend := fun _ => none }

/-- A one-element discovery result. -/
def radars1 : List (String × RadarServerInfo) := [("radar-1", info0)]

/-- Claim C8: `connectToRadar` with an explicit id absent from the
discovered set throws the not-found error carrying the full list of
available ids (rendered `"Radar <id> not found. Available radars: <ids>"`),
leaves `connecting` false again, and constructs no WebSocket. -/
theorem connect_unknown_id (radars : List (String × RadarServerInfo))
    (r : String) (s : SvcState) (hcg : s.connecting = false)
    (hcd : s.connected = false) (hno : r ∉ radarKeys radars) :
    (connectToRadar radars (some r) s).2 =
      some (RadarError.sourceNotFound r (radarKeys radars)) ∧
    (connectToRadar radars (some r) s).1.socketsOpened = s.socketsOpened ∧
    (connectToRadar radars (some r) s).1.socket = s.socket ∧
    (connectToRadar radars (some r) s).1.connecting = false ∧
    (connectToRadar radars (some r) s).1.connected = s.connected ∧
    (connectToRadar radars (some r) s).1.currentRadar = s.currentRadar ∧
    errorMessage (RadarError.sourceNotFound r (radarKeys radars)) =
      "Radar " ++ r ++ " not found. Available radars: " ++
        String.intercalate ", " (radarKeys radars) := by
  have hlook : lookupRadar radars r = none := by
    unfold lookupRadar
    rw [List.find?_eq_none.mpr]
    · rfl
    · intro p hp
      simp only [decide_eq_true_eq]
      exact fun h => hno (h ▸ List.mem_map_of_mem Prod.fst hp)
  unfold connectToRadar
  rw [hcg, hcd]
  simp only [Bool.or_self, Bool.false_eq_true, if_false, hlook]
  refine ⟨?_, ?_, ?_, ?_, ?_, ?_, ?_⟩ <;> first | rfl | trivial

theorem connect_unknown_id_witness :
    initSvc.connecting = false ∧ initSvc.connected = false ∧
    "ghost" ∉ radarKeys radars1 ∧
    (connectToRadar radars1 (some "ghost") initSvc).2 =
      some (RadarError.sourceNotFound "ghost" ["radar-1"]) ∧
    (connectToRadar radars1 (some "ghost") initSvc).1.socketsOpened = 0 ∧
    errorMessage (RadarError.sourceNotFound "ghost" (radarKeys radars1)) =
      "Radar ghost not found. Available radars: radar-1" := by
  have h := connect_unknown_id radars1 "ghost" initSvc rfl rfl (by decide)
  exact ⟨rfl, rfl, by decide, h.1, h.2.1, by rfl⟩

/-- Claim C9: `updateRange(meters)` republishes the current DisplayConfig
with only `range` replaced — `spokes`, `maxSpokeLen` and `legend` are
untouched — and neither the socket, the open-socket count, the connection
flags, the current radar, nor any queued close or timer changes. -/
theorem updateRange_pure_local (s : SvcState) (cfg : RadarConfig) (m : ℚ)
    (h : s.radarConfig = some cfg) :
    (updateRange s m).radarConfig =
      some { spokes := cfg.spokes, maxSpokeLen := cfg.maxSpokeLen,
             legend := cfg.legend, range := m } ∧
    (updateRange s m).socket = s.socket ∧
    (updateRange s m).socketsOpened = s.socketsOpened ∧
    (updateRange s m).connected = s.connected ∧
    (updateRange s m).connecting = s.connecting ∧
    (updateRange s m).currentRadar = s.currentRadar ∧
    (updateRange s m).closeQueued = s.closeQueued ∧
    (updateRange s m).reconnectTimers = s.reconnectTimers := by
  unfold updateRange
  rw [h]
  exact ⟨rfl, rfl, rfl, rfl, rfl, rfl, rfl, rfl⟩

/-- A service state with a published config, for the C9 witness. -/
def svc1 : SvcState := { initSvc with radarConfig := some cfg0 }

theorem updateRange_pure_local_witness :
    svc1.radarConfig = some cfg0 ∧
    (updateRange svc1 3704).radarConfig =
      some { spokes := cfg0.spokes, maxSpokeLen := cfg0.maxSpokeLen,
             legend := cfg0.legend, range := 3704 } ∧
    (updateRange svc1 3704).socket = svc1.socket ∧
    (updateRange svc1 3704).socketsOpened = svc1.socketsOpened :=
  ⟨rfl, (updateRange_pure_local svc1 cfg0 3704 rfl).1,
   (updateRange_pure_local svc1 cfg0 3704 rfl).2.1,
   (updateRange_pure_local svc1 cfg0 3704 rfl).2.2.1⟩

/-! ### Reconnect policy (claim C5) -/

/-- Connect, open, explicitly disconnect, then the queued `onclose` of our
own `close()` fires: the only closure is the clean, explicit one. -/
def trace1 : List SvcEvent :=
  [.userConnect (some "radar-1"), .socketOpened, .userDisconnect,
   .queuedCloseFired]

/-- After an explicit disconnect the user reconnects; the new socket dies
remotely, and then the old queued `onclose` also fires: two reconnect
timers end up outstanding simultaneously. -/
def trace2 : List SvcEvent :=
  [.userConnect (some "radar-1"), .socketOpened, .userDisconnect,
   .userConnect (some "radar-1"), .socketOpened, .remoteClose,
   .queuedCloseFired]

/-- Claim C5, first half, formalized: if no unclean (remote) close ever
happens, no reconnect timer is outstanding. -/
def reconnectOnlyWhenUnclean : Prop :=
  ∀ tr : List SvcEvent, SvcEvent.remoteClose ∉ tr →
    (runTrace radars1 initSvc tr).reconnectTimers = 0

/-- Claim C5, second half, formalized: at most one outstanding reconnect
timer at any time (here: after any event trace). -/
def atMostOneReconnectTimer : Prop :=
  ∀ tr : List SvcEvent, (runTrace radars1 initSvc tr).reconnectTimers ≤ 1

/-- Claim C5 as frozen is false on both counts: after `trace1` — whose
only closure is the clean, explicit `disconnect()` — one reconnect timer
is outstanding (the `onclose` handler schedules it unconditionally), and
after `trace2` two reconnect timers are outstanding at once (timers are
never cancelled). -/
theorem reconnect_policy_counterexample :
    ¬reconnectOnlyWhenUnclean ∧ ¬atMostOneReconnectTimer := by
  constructor
  · intro hcl
    have h1 := hcl trace1 (by decide)
    have h2 : (runTrace radars1 initSvc trace1).reconnectTimers = 1 := rfl
    omega
  · intro hcl
    have h1 := hcl trace2
    have h2 : (runTrace radars1 initSvc trace2).reconnectTimers = 2 := rfl
    omega

/-- Claim C5 (amended): on every stream close the state returns to
disconnected and one fixed-delay (5000 ms) reconnect timer is scheduled,
clean or not; when a timer fires it reconnects to the same source id if
and only if a current radar is still set — after an explicit
`disconnect()` it is not, so the timer is a no-op beyond consuming
itself; timers are never cancelled, so several may be outstanding. -/
theorem reconnect_policy (radars : List (String × RadarServerInfo))
    (s : SvcState) (r : String) (info info2 : RadarServerInfo) :
    ((handleClose s).connected = false ∧ (handleClose s).connecting = false ∧
     (handleClose s).reconnectTimers = s.reconnectTimers + 1 ∧
     reconnectDelayMs = 5000) ∧
    (1 ≤ s.reconnectTimers → s.currentRadar = none →
      step radars s .timerFired =
        { s with reconnectTimers := s.reconnectTimers - 1 }) ∧
    (1 ≤ s.reconnectTimers → s.currentRadar = some (r, info) →
      s.connecting = false → s.connected = false →
      lookupRadar radars r = some info2 →
      (step radars s .timerFired).connecting = true ∧
      (step radars s .timerFired).currentRadar = some (r, info2) ∧
      (step radars s .timerFired).socketsOpened = s.socketsOpened + 1) := by
  refine ⟨⟨rfl, rfl, rfl, rfl⟩, ?_, ?_⟩
  · intro ht hnone
    simp only [step, if_pos ht]
    have : ({ s with reconnectTimers := s.reconnectTimers - 1 } :
        SvcState).currentRadar = none := hnone
    rw [this]
  · intro ht hcur hcg hcd hlook
    simp only [step, if_pos ht]
    have hc2 : ({ s with reconnectTimers := s.reconnectTimers - 1 } :
        SvcState).currentRadar = some (r, info) := hcur
    rw [hc2]
    unfold connectToRadar
    simp only [hcg, hcd, Bool.or_self, Bool.false_eq_true, if_false, hlook]
    refine ⟨?_, ?_, ?_⟩ <;> first | rfl | trivial

/-- A state with one outstanding timer and a current radar (an unclean
close just happened), and one with the radar cleared (explicit
disconnect happened). -/
def svcTimerRadar : SvcState :=
  { initSvc with reconnectTimers := 1,
                 currentRadar := some ("radar-1", info0) }

def svcTimerNoRadar : SvcState := { initSvc with reconnectTimers := 1 }

theorem reconnect_policy_witness :
    (1 ≤ svcTimerNoRadar.reconnectTimers ∧ svcTimerNoRadar.currentRadar = none ∧
      step radars1 svcTimerNoRadar .timerFired =
        { svcTimerNoRadar with reconnectTimers := 0 }) ∧
    (1 ≤ svcTimerRadar.reconnectTimers ∧
      svcTimerRadar.currentRadar = some ("radar-1", info0) ∧
      svcTimerRadar.connecting = false ∧ svcTimerRadar.connected = false ∧
      lookupRadar radars1 "radar-1" = some info0 ∧
      (step radars1 svcTimerRadar .timerFired).connecting = true ∧
      (step radars1 svcTimerRadar .timerFired).currentRadar =
        some ("radar-1", info0) ∧
      (step radars1 svcTimerRadar .timerFired).socketsOpened = 1) := by
  have h2 := (reconnect_policy radars1 svcTimerNoRadar "radar-1" info0 info0).2.1
    (by decide) rfl
  have h3 := (reconnect_policy radars1 svcTimerRadar "radar-1" info0 info0).2.2
    (by decide) rfl rfl rfl rfl
  exact ⟨⟨by decide, rfl, h2⟩,
    ⟨by decide, rfl, rfl, rfl, rfl, h3.1, h3.2.1, h3.2.2⟩⟩

end Swiftships
